import Mathlib

/-!
Verification of the `ocr-tesseract-docker` pipeline (`src/tesseract.py`,
`src/main.py`) against its natural-language specification.

The Python source is shallowly embedded: rectangles and matrices use `ℚ`
(the source manipulates Python floats, but every claim concerns exact
arithmetic on the inputs involved), fallible steps return `Except`, and
the page loop is explicit recursion over a list of per-page outcomes.
The helper module `utils` (matrix composition helpers and the ISO→Tesseract
language table) is not part of the repository snapshot; those definitions
are modelled from the specification's words and marked as such.
-/

namespace OcrTesseract

/-- A PDF rectangle as used by `PdfRect`: `{left, bottom, right, top}`. -/
structure PdfRect where
  left : ℚ
  bottom : ℚ
  right : ℚ
  top : ℚ
  deriving Repr, DecidableEq

/-- Errors of the geometry computation.  `zeroDivision` embeds Python's
`ZeroDivisionError`, the only error the source can raise there. -/
inductive GeomError where
  | zeroDivision
  deriving Repr, DecidableEq

/-- Effective OCR-output box width used as the `scale_x` divisor: the raw
width `right - left`, swapped with the raw height when `rotate` is 90 or
270 (`tesseract.py` lines 190-196). -/
def effectiveWidth (tempBox : PdfRect) (rotate : ℤ) : ℚ :=
  if rotate = 90 ∨ rotate = 270 then tempBox.top - tempBox.bottom
  else tempBox.right - tempBox.left

/-- Effective OCR-output box height used as the `scale_y` divisor
(`tesseract.py` lines 190-196). -/
def effectiveHeight (tempBox : PdfRect) (rotate : ℤ) : ℚ :=
  if rotate = 90 ∨ rotate = 270 then tempBox.right - tempBox.left
  else tempBox.top - tempBox.bottom

/-- The scale computation of `tesseract.py` lines 187-199: raw widths and
heights of the destination crop box and the OCR-output page box, the
width/height swap when `rotate` is 90 or 270, then the two divisions.
Python raises `ZeroDivisionError` on a zero divisor (checked in evaluation
order: `scale_x` first); any nonzero divisor, negative included, divides
without complaint. -/
def computeScales (cropBox tempBox : PdfRect) (rotate : ℤ) :
    Except GeomError (ℚ × ℚ) :=
  let width := cropBox.right - cropBox.left
  let height := cropBox.top - cropBox.bottom
  let widthTmp := effectiveWidth tempBox rotate
  let heightTmp := effectiveHeight tempBox rotate
  if widthTmp = 0 then .error .zeroDivision
  else if heightTmp = 0 then .error .zeroDivision
  else .ok (width / widthTmp, height / heightTmp)

/-- A PDF affine matrix `(a, b, c, d, e, f)` representing
`(x, y) ↦ (a·x + c·y + e, b·x + d·y + f)`. -/
structure PdfMatrix where
  a : ℚ
  b : ℚ
  c : ℚ
  d : ℚ
  e : ℚ
  f : ℚ
  deriving Repr, DecidableEq

namespace PdfMatrix

/-- The identity matrix, the value of a fresh `PdfMatrix()`. -/
def identity : PdfMatrix := ⟨1, 0, 0, 1, 0, 0⟩

/-- Matrix composition, with the 6-tuples read as the usual 3×3 PDF
matrices acting on row vectors. -/
def mul (m n : PdfMatrix) : PdfMatrix :=
  ⟨m.a * n.a + m.b * n.c,
   m.a * n.b + m.b * n.d,
   m.c * n.a + m.d * n.c,
   m.c * n.b + m.d * n.d,
   m.e * n.a + m.f * n.c + n.e,
   m.e * n.b + m.f * n.d + n.f⟩

end PdfMatrix

/-- Cosine of `q·90°` for a quadrant `q ∈ {0,1,2,3}`, kept in `ℚ`. -/
def quadCos (q : ℤ) : ℚ :=
  if q = 0 then 1 else if q = 1 then 0 else if q = 2 then -1 else 0

/-- Sine of `q·90°` for a quadrant `q ∈ {0,1,2,3}`, kept in `ℚ`. -/
def quadSin (q : ℤ) : ℚ :=
  if q = 0 then 0 else if q = 1 then 1 else if q = 2 then 0 else -1

/-- The pure rotation matrix for the angle `q·90°`. -/
def rotationMatrix (q : ℤ) : PdfMatrix :=
  ⟨quadCos q, quadSin q, -quadSin q, quadCos q, 0, 0⟩

/-- The pure scaling matrix for factors `(sx, sy)`. -/
def scalingMatrix (sx sy : ℚ) : PdfMatrix := ⟨sx, 0, 0, sy, 0, 0⟩

/-- The pure translation matrix moving the origin to `(tx, ty)`. -/
def translationMatrix (tx ty : ℚ) : PdfMatrix := ⟨1, 0, 0, 1, tx, ty⟩

/-- Modelled from the spec: `utils.pdf_matrix_rotate` is missing from the
repository snapshot; per §4.2 each step right-multiplies the running
matrix, here by a rotation of `q·90°` (the source passes the angle
`q·π/2`). -/
def pdfMatrixRotate (m : PdfMatrix) (q : ℤ) : PdfMatrix :=
  m.mul (rotationMatrix q)

/-- Modelled from the spec: `utils.pdf_matrix_scale` is missing from the
repository snapshot; per §4.2 it right-multiplies the running matrix by a
scaling of `(sx, sy)`. -/
def pdfMatrixScale (m : PdfMatrix) (sx sy : ℚ) : PdfMatrix :=
  m.mul (scalingMatrix sx sy)

/-- Modelled from the spec: `utils.pdf_matrix_translate` is missing from
the repository snapshot; per §4.2 it right-multiplies the running matrix
by a translation to `(tx, ty)`. -/
def pdfMatrixTranslate (m : PdfMatrix) (tx ty : ℚ) : PdfMatrix :=
  m.mul (translationMatrix tx ty)

/-- Rotation quadrant `q = (rotation / 90) mod 4` (`tesseract.py` line
202; for the admissible rotations, all multiples of 90, Python's true
division agrees with integer division). -/
def quadrant (rotate : ℤ) : ℤ := (rotate / 90) % 4

/-- The placement-matrix computation of `tesseract.py` lines 202-233:
start from a fresh identity matrix, rotate by the quadrant angle, scale,
then translate to the crop-box corner selected by the quadrant
(`q=0 → (left,bottom)`, `q=1 → (right,bottom)`, `q=2 → (right,top)`,
`q=3 → (left,top)`); the `if/elif` chain adds no translation for any
other quadrant value. -/
def placementMatrix (cropBox : PdfRect) (rotate : ℤ) (sx sy : ℚ) :
    PdfMatrix :=
  let q := quadrant rotate
  let m := PdfMatrix.identity
  let m := pdfMatrixRotate m q
  let m := pdfMatrixScale m sx sy
  if q = 0 then pdfMatrixTranslate m cropBox.left cropBox.bottom
  else if q = 1 then pdfMatrixTranslate m cropBox.right cropBox.bottom
  else if q = 2 then pdfMatrixTranslate m cropBox.right cropBox.top
  else if q = 3 then pdfMatrixTranslate m cropBox.left cropBox.top
  else m

/-- The anchor corner the claim assigns to each quadrant. -/
def anchorCorner (cropBox : PdfRect) (q : ℤ) : ℚ × ℚ :=
  if q = 0 then (cropBox.left, cropBox.bottom)
  else if q = 1 then (cropBox.right, cropBox.bottom)
  else if q = 2 then (cropBox.right, cropBox.top)
  else (cropBox.left, cropBox.top)

/-- A page content object, polymorphic over the five variants of the data
model; the payload stands in for the opaque object data. -/
inductive ContentObject where
  | text (payload : ℕ)
  | image (payload : ℕ)
  | path (payload : ℕ)
  | form (matrix : PdfMatrix) (payload : ℕ)
  | other (payload : ℕ)
  deriving Repr, DecidableEq

/-- The `obj.GetObjectType() == kPdsPageText` test of `tesseract.py`
line 171. -/
def isText : ContentObject → Bool
  | .text _ => true
  | _ => false

/-- One iteration of the removal loop of `tesseract.py` lines 168-172 at
index `j`: fetch the object at `j` and remove it in place unless it is a
text object. -/
def filterStep (content : List ContentObject) (j : ℕ) : List ContentObject :=
  match content[j]? with
  | some obj => if isText obj then content else content.eraseIdx j
  | none => content

/-- The removal loop run for indices `n-1, n-2, …, 0` (the source's
`for j in reversed(range(...))`), threading the mutated stream. -/
def filterFrom (content : List ContentObject) : ℕ → List ContentObject
  | 0 => content
  | j + 1 => filterFrom (filterStep content j) j

/-- The whole content filter of `tesseract.py` lines 167-172: run the
reverse-index removal loop over all object indices of the stream. -/
def contentFilter (content : List ContentObject) : List ContentObject :=
  filterFrom content content.length

/-- Modelled from the spec: `PdsContent.AddNewForm(-1, xobj, matrix)`
(called at `tesseract.py` line 236) belongs to the external PDF engine;
per §4.5/§6 it appends one Form-variant object carrying the placement
matrix after all existing objects of the stream. -/
def addNewForm (content : List ContentObject) (matrix : PdfMatrix)
    (xobjPayload : ℕ) : List ContentObject :=
  content ++ [ContentObject.form matrix xobjPayload]

/-- Per-page environment for the pipeline run: whether each fallible
per-page step of `tesseract.py` lines 141-238 succeeds. -/
structure PageEnv where
  acquireOk : Bool
  renderOk : Bool
  ocrOk : Bool
  openTempOk : Bool
  xobjOk : Bool
  addFormOk : Bool
  deriving Repr, DecidableEq

/-- A page environment in which every step succeeds. -/
def PageEnv.allOk : PageEnv := ⟨true, true, true, true, true, true⟩

/-- The errors the run can raise: one per fallible per-page step, plus
the document-level save failure. -/
inductive RunError where
  | acquireFail
  | renderFail
  | ocrFail
  | openTempFail
  | xobjFail
  | addFormFail
  | saveFail
  deriving Repr, DecidableEq

/-- Processing of one page (`tesseract.py` lines 142-238): each step
raises its error as soon as it fails, in source order — page acquisition,
rendering, OCR, temp-document open, XObject (form) creation, content
append. -/
def pageResult (p : PageEnv) : Except RunError Unit :=
  if !p.acquireOk then .error .acquireFail
  else if !p.renderOk then .error .renderFail
  else if !p.ocrOk then .error .ocrFail
  else if !p.openTempOk then .error .openTempFail
  else if !p.xobjOk then .error .xobjFail
  else if !p.addFormOk then .error .addFormFail
  else .ok ()

/-- The sequential page loop (`tesseract.py` line 141): pages are
processed in order and the first raised error aborts the loop. -/
def runPages : List PageEnv → Except RunError Unit
  | [] => .ok ()
  | p :: rest =>
    match pageResult p with
    | .error e => .error e
    | .ok _ => runPages rest

deriving instance DecidableEq for Except

/-- Observable outcome of one run of `ocr`. -/
structure RunOutcome where
  result : Except RunError Unit
  saveAttempted : Bool
  outputProduced : Bool
  deriving Repr, DecidableEq

/-- The whole `ocr` run (`tesseract.py` lines 141-241): the page loop,
then — only if no page raised — the single document-level
`doc.Save(output_path)`, the sole step that produces the output file. -/
def runPipeline (pages : List PageEnv) (saveOk : Bool) : RunOutcome :=
  match runPages pages with
  | .error e => ⟨.error e, false, false⟩
  | .ok _ =>
    if saveOk then ⟨.ok (), true, true⟩ else ⟨.error .saveFail, true, false⟩

/-- Filesystem model: the list of files currently existing, in creation
order.  Creating a file appends its name. -/
def fsCreate (fs : List String) (name : String) : List String :=
  fs ++ [name]

/-- Deleting a file removes every entry with that name. -/
def fsRemove (fs : List String) (name : String) : List String :=
  fs.filter (fun f => f != name)

/-- File effects of a successful `render_pages` call (`tesseract.py`
lines 70-86): `tempfile.NamedTemporaryFile()` creates `tmpName`, the
pdfix file stream creates `tmpName ++ ".jpg"`, and on leaving the `with`
block the context manager deletes `tmpName` — and only `tmpName`; nothing
in the source ever deletes the `.jpg` file. -/
def renderPagesFiles (tmpName : String) (fs : List String) : List String :=
  let fs := fsCreate fs tmpName
  let fs := fsCreate fs (tmpName ++ ".jpg")
  fsRemove fs tmpName

/-- File effects of one successful page-loop iteration (`tesseract.py`
lines 141-238): the render step, then `open(temp_path, "w+b")` creates
the OCR-output pdf at `tempPath`, and `os.remove(temp_path)` deletes it. -/
def pageIterationFiles (tmpName tempPath : String) (fs : List String) :
    List String :=
  let fs := renderPagesFiles tmpName fs
  let fs := fsCreate fs tempPath
  fsRemove fs tempPath

/-- File effects of a whole successful run: one iteration per page, each
with its fresh temporary names; the run performs no further file
deletions between the page loop and process exit. -/
def runFiles : List (String × String) → List String → List String
  | [], fs => fs
  | (tmpName, tempPath) :: rest, fs =>
    runFiles rest (pageIterationFiles tmpName tempPath fs)

/-- The output stream a CLI message is printed to. -/
inductive OutStream where
  | stdout
  | stderr
  deriving Repr, DecidableEq

/-- Arguments of an `ocr` subcommand invocation that got past argument
parsing, together with the environment facts `main` branches on. -/
structure OcrArgs where
  input : String
  output : String
  inputExists : Bool
  pipelineOk : Bool
  deriving Repr, DecidableEq

/-- The distinguishable ways a CLI invocation can reach `main`'s dispatch
(`main.py` lines 65-96). -/
inductive Invocation where
  | parseFailure
  | helpRequested
  | config
  | ocrMissingArgs
  | ocrRun (a : OcrArgs)
  | noSubcommand
  deriving Repr, DecidableEq

/-- The `.pdf` extension test of `main.py` line 89,
`file.lower().endswith(".pdf")`, computed on the character list. -/
def isPdfName (s : String) : Bool :=
  List.isSuffixOf ".pdf".data (s.data.map Char.toLower)

/-- The message `main` prints when argument parsing fails (modulo
punctuation), `main.py` line 70 — printed with `print`, i.e. to stdout. -/
def msgParseFailed : String :=
  "Failed to parse arguments. Please check the usage and try again."

/-- The `parser.error` message for a missing `-i`/`-o`, `main.py`
lines 78-80 — argparse prints it to stderr and exits with code 2. -/
def msgMissingArgs : String :=
  "The following arguments are required: -i/--input, -o/--output"

/-- The missing-input-file message (modulo quoting), `main.py` line 86 —
passed to `sys.exit`, which prints it to stderr and exits with code 1. -/
def msgMissingInput (input : String) : String :=
  "Error: The input file " ++ input ++ " does not exist."

/-- The pipeline-failure message prefix, `main.py` line 93 — passed to
`sys.exit`, so printed to stderr with exit code 1. -/
def msgOcrFailed : String :=
  "Failed to run OCR"

/-- The non-PDF-extension message, `main.py` line 96 — printed with
`print`, i.e. to stdout, after which `main` returns normally. -/
def msgNotPdf : String :=
  "Input and output file must be PDF"

/-- `main`'s dispatch (`main.py` lines 65-96) as a pure function from the
invocation shape to the process exit code and the list of
(stream, message) pairs the dispatch itself emits, in order.  A normal
return from `main` is exit code 0. -/
def mainRun : Invocation → ℕ × List (OutStream × String)
  | .parseFailure => (1, [(.stdout, msgParseFailed)])
  | .helpRequested => (0, [])
  | .config => (0, [])
  | .ocrMissingArgs => (2, [(.stderr, msgMissingArgs)])
  | .ocrRun a =>
    if !a.inputExists then (1, [(.stderr, msgMissingInput a.input)])
    else if isPdfName a.input && isPdfName a.output then
      if a.pipelineOk then (0, []) else (1, [(.stderr, msgOcrFailed)])
    else (0, [(.stdout, msgNotPdf)])
  | .noSubcommand => (0, [])

/-- The language-resolution step of `tesseract.py` lines 130-136 as a
function of the CLI `lang` argument and the document-declared language,
parametric in the ISO→Tesseract table (`utils.translate_iso_to_tesseract`
is not in the repository snapshot; the claim holds for every table).
Returns the language code handed to the OCR adapter, paired with whether
the document language was read and the table consulted. -/
def resolveLang (translate : String → Option String) (argLang docLang : String) :
    String × Bool :=
  if argLang = "" then
    match translate docLang with
    | none => ("eng", true)
    | some pdfLang => (pdfLang, true)
  else (argLang, false)

/-- The temporary OCR-output pdf path of `tesseract.py` lines 151-153:
`tempfile.gettempdir() + str(uuid.uuid4()) + ".pdf"` — plain string
concatenation, with no path separator inserted. -/
def tempPdfPath (tmpDir uuidStr : String) : String :=
  tmpDir ++ uuidStr ++ ".pdf"

end OcrTesseract

namespace OcrTesseract

/-! ## Theorems -/

/-- Helper: a page loop containing a failing page ends in the error of
some failing page. -/
theorem runPages_error_of_failing (pages : List PageEnv)
    (h : ∃ p ∈ pages, pageResult p ≠ .ok ()) :
    ∃ e, runPages pages = .error e := by
  induction pages with
  | nil => simp at h
  | cons p rest ih =>
    obtain ⟨q, hq, hfail⟩ := h
    cases hmem : pageResult p with
    | error e => exact ⟨e, by simp [runPages, hmem]⟩
    | ok u =>
      rcases List.mem_cons.mp hq with rfl | hq2
      · cases u; exact absurd hmem hfail
      · obtain ⟨e, he⟩ := ih ⟨q, hq2, hfail⟩
        exact ⟨e, by simp [runPages, hmem, he]⟩

/-- Claim C1: if any per-page step fails on any page, the whole `ocr` run
surfaces the raised error, the document-level save is never attempted,
and no output file is produced. -/
theorem ocr_aborts_before_save (pages : List PageEnv) (saveOk : Bool)
    (h : ∃ p ∈ pages, pageResult p ≠ .ok ()) :
    ∃ e, runPages pages = .error e ∧
      runPipeline pages saveOk = ⟨.error e, false, false⟩ := by
  obtain ⟨e, he⟩ := runPages_error_of_failing pages h
  exact ⟨e, he, by simp [runPipeline, he]⟩

/-- Claim C1 witness: a 3-page run whose second page fails to render
aborts with that error, without attempting the save. -/
theorem ocr_aborts_before_save_witness :
    ∃ e, runPages [PageEnv.allOk, ⟨true, false, true, true, true, true⟩,
        PageEnv.allOk] = .error e ∧
      runPipeline [PageEnv.allOk, ⟨true, false, true, true, true, true⟩,
        PageEnv.allOk] true = ⟨.error e, false, false⟩ :=
  ocr_aborts_before_save _ true
    ⟨⟨true, false, true, true, true, true⟩, by decide, by decide⟩

/-- Claim C2: for every rotation in {0, 90, 180, 270}, the placement
matrix is composed from the identity by right-multiplying a rotation by
`q·90°`, then a scaling by `(sx, sy)`, then a translation to the anchor
corner selected by the quadrant `q` — (left,bottom), (right,bottom),
(right,top), (left,top) for `q` = 0, 1, 2, 3 respectively. -/
theorem placement_matrix_fixed_order (cropBox : PdfRect) (rotate : ℤ)
    (sx sy : ℚ)
    (h : rotate = 0 ∨ rotate = 90 ∨ rotate = 180 ∨ rotate = 270) :
    placementMatrix cropBox rotate sx sy =
      ((PdfMatrix.identity.mul (rotationMatrix (quadrant rotate))).mul
          (scalingMatrix sx sy)).mul
        (translationMatrix (anchorCorner cropBox (quadrant rotate)).1
          (anchorCorner cropBox (quadrant rotate)).2) := by
  rcases h with rfl | rfl | rfl | rfl <;> rfl

/-- Claim C2 witness: the fixed-order composition at rotation 90 with a
concrete crop box and scale factors. -/
theorem placement_matrix_fixed_order_witness :
    placementMatrix ⟨0, 0, 612, 792⟩ 90 (1/2) (1/2) =
      ((PdfMatrix.identity.mul (rotationMatrix (quadrant 90))).mul
          (scalingMatrix (1/2) (1/2))).mul
        (translationMatrix (anchorCorner ⟨0, 0, 612, 792⟩ (quadrant 90)).1
          (anchorCorner ⟨0, 0, 612, 792⟩ (quadrant 90)).2) :=
  placement_matrix_fixed_order _ _ _ _ (Or.inr (Or.inl rfl))

/-- Claim C3: with positive effective OCR-box dimensions, `scale_x` is
the destination width divided by the effective OCR width and `scale_y`
the destination height divided by the effective OCR height, the OCR box's
width and height being swapped exactly when the rotation is 90 or 270. -/
theorem computeScales_ratio (cropBox tempBox : PdfRect) (rotate : ℤ)
    (hw : 0 < effectiveWidth tempBox rotate)
    (hh : 0 < effectiveHeight tempBox rotate) :
    computeScales cropBox tempBox rotate =
      .ok ((cropBox.right - cropBox.left) / effectiveWidth tempBox rotate,
           (cropBox.top - cropBox.bottom) / effectiveHeight tempBox rotate) := by
  simp only [computeScales]
  rw [if_neg hw.ne', if_neg hh.ne']

/-- Claim C3 witness: destination CropBox {0,0,612,792} at rotation 0
against OCR box {0,0,1224,1584} yields scales (1/2, 1/2), and the
translate anchor for that rotation is (0, 0). -/
theorem computeScales_ratio_witness :
    computeScales ⟨0, 0, 612, 792⟩ ⟨0, 0, 1224, 1584⟩ 0 = .ok (1/2, 1/2) ∧
    anchorCorner ⟨0, 0, 612, 792⟩ (quadrant 0) = (0, 0) := by
  refine ⟨?_, by norm_num [anchorCorner, quadrant]⟩
  rw [computeScales_ratio ⟨0, 0, 612, 792⟩ ⟨0, 0, 1224, 1584⟩ 0
    (by norm_num [effectiveWidth]) (by norm_num [effectiveHeight])]
  norm_num [effectiveWidth, effectiveHeight]

/-- Claim C4 counterexample: with a negative effective OCR width the
geometry computation does not fail — it returns a negative scale. -/
theorem computeScales_negative_no_error :
    computeScales ⟨0, 0, 612, 792⟩ ⟨0, 0, -612, 792⟩ 0 = .ok (-1, 1) := by
  simp only [computeScales, effectiveWidth, effectiveHeight]
  norm_num

/-- Claim C4 amended: a zero effective width or height makes the
computation fail with the division-by-zero error, but negative divisors
are not detected: whenever both effective dimensions are nonzero the
computation succeeds with the ratio scales, and a negative effective
width (resp. height) yields a negative `scale_x` (resp. `scale_y`)
whenever the matching destination dimension is positive. -/
theorem computeScales_zero_vs_negative (cropBox tempBox : PdfRect) (rotate : ℤ) :
    ((effectiveWidth tempBox rotate = 0 ∨ effectiveHeight tempBox rotate = 0) →
      computeScales cropBox tempBox rotate = .error .zeroDivision) ∧
    (effectiveWidth tempBox rotate ≠ 0 → effectiveHeight tempBox rotate ≠ 0 →
      computeScales cropBox tempBox rotate =
        .ok ((cropBox.right - cropBox.left) / effectiveWidth tempBox rotate,
             (cropBox.top - cropBox.bottom) / effectiveHeight tempBox rotate) ∧
      (effectiveWidth tempBox rotate < 0 → 0 < cropBox.right - cropBox.left →
        (cropBox.right - cropBox.left) / effectiveWidth tempBox rotate < 0) ∧
      (effectiveHeight tempBox rotate < 0 → 0 < cropBox.top - cropBox.bottom →
        (cropBox.top - cropBox.bottom) / effectiveHeight tempBox rotate < 0)) := by
  constructor
  · rintro (h | h)
    · simp [computeScales, h]
    · simp only [computeScales]
      by_cases hw : effectiveWidth tempBox rotate = 0
      · rw [if_pos hw]
      · rw [if_neg hw, if_pos h]
  · intro hw hh
    refine ⟨?_, fun hneg hpos => div_neg_of_pos_of_neg hpos hneg,
      fun hneg hpos => div_neg_of_pos_of_neg hpos hneg⟩
    simp only [computeScales]
    rw [if_neg hw, if_neg hh]

/-- Claim C4 amended witness: a zero-width OCR box raises; a
negative-width OCR box passes through with `scale_x = -1 < 0`; a
negative-height OCR box passes through with `scale_y = -1 < 0`. -/
theorem computeScales_zero_vs_negative_witness :
    computeScales ⟨0, 0, 612, 792⟩ ⟨0, 0, 0, 792⟩ 0 = .error .zeroDivision ∧
    (computeScales ⟨0, 0, 612, 792⟩ ⟨0, 0, -612, 792⟩ 0 = .ok (-1, 1) ∧
      ((612 : ℚ) - 0) / effectiveWidth ⟨0, 0, -612, 792⟩ 0 < 0) ∧
    (computeScales ⟨0, 0, 612, 792⟩ ⟨0, 0, 1224, -792⟩ 0 = .ok (1/2, -1) ∧
      ((792 : ℚ) - 0) / effectiveHeight ⟨0, 0, 1224, -792⟩ 0 < 0) := by
  have hW := (computeScales_zero_vs_negative ⟨0, 0, 612, 792⟩
    ⟨0, 0, -612, 792⟩ 0).2 (by norm_num [effectiveWidth])
    (by norm_num [effectiveHeight])
  have hH := (computeScales_zero_vs_negative ⟨0, 0, 612, 792⟩
    ⟨0, 0, 1224, -792⟩ 0).2 (by norm_num [effectiveWidth])
    (by norm_num [effectiveHeight])
  refine ⟨(computeScales_zero_vs_negative ⟨0, 0, 612, 792⟩ ⟨0, 0, 0, 792⟩ 0).1
      (Or.inl (by norm_num [effectiveWidth])),
    ⟨?_, hW.2.1 (by norm_num [effectiveWidth]) (by norm_num)⟩,
    ⟨?_, hH.2.2 (by norm_num [effectiveHeight]) (by norm_num)⟩⟩
  · rw [hW.1]
    simp only [effectiveWidth, effectiveHeight]
    norm_num
  · rw [hH.1]
    simp only [effectiveWidth, effectiveHeight]
    norm_num

/-- Helper for claim C5: the reverse removal loop started at any prefix
length `n` of the stream acts as `List.filter` on that prefix and leaves
the rest of the stream alone. -/
theorem filterFrom_spec (n : ℕ) : ∀ l : List ContentObject, n ≤ l.length →
    filterFrom l n = (l.take n).filter isText ++ l.drop n := by
  induction n with
  | zero => intro l _; simp [filterFrom]
  | succ n ih =>
    intro l h
    have hn : n < l.length := h
    have hget : l[n]? = some l[n] := List.getElem?_eq_getElem hn
    by_cases ht : isText l[n]
    · have hstep : filterStep l n = l := by simp [filterStep, hget, ht]
      rw [filterFrom, hstep, ih l (Nat.le_of_lt hn)]
      rw [List.take_succ, List.filter_append, hget, List.drop_eq_getElem_cons hn]
      simp [List.filter_cons, ht]
    · have hstep : filterStep l n = l.take n ++ l.drop (n + 1) := by
        simp [filterStep, hget, ht, List.eraseIdx_eq_take_drop_succ]
      have hlt : (l.take n).length = n := by rw [List.length_take]; omega
      have hlen : n ≤ (l.take n ++ l.drop (n + 1)).length := by
        simp [List.length_take]; omega
      rw [filterFrom, hstep, ih _ hlen]
      have htake : (l.take n ++ l.drop (n + 1)).take n = l.take n := by
        nth_rewrite 1 [← hlt]
        exact List.take_left _ _
      have hdrop : (l.take n ++ l.drop (n + 1)).drop n = l.drop (n + 1) := by
        nth_rewrite 1 [← hlt]
        exact List.drop_left _ _
      rw [htake, hdrop, List.take_succ, List.filter_append, hget]
      simp [List.filter_cons, ht]

/-- Claim C5: the reverse-index in-place removal loop leaves the stream
containing exactly the Text-variant objects in their original relative
order, and runs without failing on an empty stream. -/
theorem contentFilter_keeps_exactly_text (content : List ContentObject) :
    contentFilter content = content.filter isText ∧
    contentFilter ([] : List ContentObject) = [] := by
  constructor
  · unfold contentFilter
    rw [filterFrom_spec content.length content le_rfl]
    simp
  · rfl

/-- Claim C6: compositing leaves every pre-existing content object of the
destination page unchanged at its index and appends exactly one new
Form-variant object, carrying the placement matrix, after them all. -/
theorem addNewForm_preserves_and_appends (content : List ContentObject)
    (matrix : PdfMatrix) (payload : ℕ) :
    (addNewForm content matrix payload).length = content.length + 1 ∧
    (∀ i, i < content.length →
      (addNewForm content matrix payload)[i]? = content[i]?) ∧
    (addNewForm content matrix payload)[content.length]? =
      some (.form matrix payload) := by
  refine ⟨by simp [addNewForm], ?_, ?_⟩
  · intro i hi
    simp [addNewForm, List.getElem?_append, hi]
  · rw [addNewForm, List.getElem?_append_right le_rfl]
    simp

/-- Claim C6 witness: compositing onto a two-object page keeps both
objects in place and appends the Form object at index 2. -/
theorem addNewForm_preserves_and_appends_witness :
    (addNewForm [ContentObject.text 0, ContentObject.image 1]
      PdfMatrix.identity 5).length = 3 ∧
    (addNewForm [ContentObject.text 0, ContentObject.image 1]
      PdfMatrix.identity 5)[0]? = some (ContentObject.text 0) ∧
    (addNewForm [ContentObject.text 0, ContentObject.image 1]
      PdfMatrix.identity 5)[2]? =
      some (ContentObject.form PdfMatrix.identity 5) := by
  obtain ⟨h1, h2, h3⟩ :=
    addNewForm_preserves_and_appends [ContentObject.text 0,
      ContentObject.image 1] PdfMatrix.identity 5
  exact ⟨h1, h2 0 (by norm_num), h3⟩

/-- Claim C7 (code bug): after a fully successful one-page run, the
rendered `.jpg` image file is still present — `NamedTemporaryFile`
deletes only its own name, never the sibling `.jpg` the image was
actually written to, so the raster persists past the page loop and past
process exit. -/
theorem renderedImage_persists :
    runFiles [("/tmpdir/render0", "/tmpdiruuid0.pdf")] [] =
      ["/tmpdir/render0.jpg"] := by
  rfl

/-- Claim C8 counterexample: a non-PDF input path (an invalid-argument
invocation) exits with code 0, and its failure message — like the
supplementary parse-failure message — is printed to stdout, not stderr. -/
theorem mainRun_c8_counterexample :
    mainRun (.ocrRun ⟨"scan.txt", "out.pdf", true, true⟩) =
      (0, [(.stdout, msgNotPdf)]) ∧
    mainRun .parseFailure = (1, [(.stdout, msgParseFailed)]) := by
  constructor
  · simp [mainRun, show isPdfName "scan.txt" = false from by decide]
  · rfl

/-- Claim C8 amended: success exits 0; parse failure exits 1 but prints
its supplementary message to stdout; missing `-i`/`-o` exits 2 with a
stderr message; a missing input file and a pipeline failure exit 1 with
stderr messages; a non-PDF input/output pair exits 0 with its message on
stdout. -/
theorem mainRun_amended (a : OcrArgs) :
    (a.inputExists = true → isPdfName a.input = true →
      isPdfName a.output = true → a.pipelineOk = true →
      mainRun (.ocrRun a) = (0, [])) ∧
    (mainRun .parseFailure = (1, [(.stdout, msgParseFailed)])) ∧
    (mainRun .ocrMissingArgs = (2, [(.stderr, msgMissingArgs)])) ∧
    (a.inputExists = false →
      mainRun (.ocrRun a) = (1, [(.stderr, msgMissingInput a.input)])) ∧
    (a.inputExists = true → isPdfName a.input = true →
      isPdfName a.output = true → a.pipelineOk = false →
      mainRun (.ocrRun a) = (1, [(.stderr, msgOcrFailed)])) ∧
    (a.inputExists = true →
      (isPdfName a.input && isPdfName a.output) = false →
      mainRun (.ocrRun a) = (0, [(.stdout, msgNotPdf)])) := by
  refine ⟨?_, rfl, rfl, ?_, ?_, ?_⟩ <;> intros <;> simp [mainRun, *]

/-- Claim C8 amended witness: the four `ocr`-subcommand outcomes at
concrete arguments. -/
theorem mainRun_amended_witness :
    mainRun (.ocrRun ⟨"in.pdf", "out.pdf", true, true⟩) = (0, []) ∧
    mainRun (.ocrRun ⟨"in.pdf", "out.pdf", false, true⟩) =
      (1, [(.stderr, msgMissingInput "in.pdf")]) ∧
    mainRun (.ocrRun ⟨"in.pdf", "out.pdf", true, false⟩) =
      (1, [(.stderr, msgOcrFailed)]) ∧
    mainRun (.ocrRun ⟨"in.txt", "out.pdf", true, true⟩) =
      (0, [(.stdout, msgNotPdf)]) :=
  ⟨(mainRun_amended ⟨"in.pdf", "out.pdf", true, true⟩).1 rfl (by decide)
      (by decide) rfl,
   (mainRun_amended ⟨"in.pdf", "out.pdf", false, true⟩).2.2.2.1 rfl,
   (mainRun_amended ⟨"in.pdf", "out.pdf", true, false⟩).2.2.2.2.1 rfl
      (by decide) (by decide) rfl,
   (mainRun_amended ⟨"in.txt", "out.pdf", true, true⟩).2.2.2.2.2 rfl (by decide)⟩

/-- Claim C9: with a non-empty `lang` argument, the document-declared
language is never read and the ISO→Tesseract table never consulted — two
runs on documents with different declared languages (and even different
tables) hand the OCR adapter the same language code. -/
theorem resolveLang_ignores_doc (translateA translateB : String → Option String)
    (argLang docLangA docLangB : String) (h : argLang ≠ "") :
    resolveLang translateA argLang docLangA = (argLang, false) ∧
    resolveLang translateB argLang docLangB = (argLang, false) := by
  constructor <;> simp [resolveLang, h]

/-- Claim C9 witness: with `lang = "deu"`, two runs over documents
declaring different languages both use `"deu"` without consulting the
table. -/
theorem resolveLang_ignores_doc_witness :
    resolveLang (fun _ => none) "deu" "fr" = ("deu", false) ∧
    resolveLang (fun _ => some "fra") "deu" "en" = ("deu", false) :=
  resolveLang_ignores_doc _ _ "deu" "fr" "en" (by decide)

/-- Claim C10: the temporary OCR-output pdf path is the bare
concatenation of the temp-directory name, the UUID string and `".pdf"`,
with no separator — so for temp directory `/tmp` the file is a sibling
`/tmp<uuid>.pdf`, not inside `/tmp/`. -/
theorem tempPdfPath_no_separator :
    (∀ tmpDir uuidStr : String,
      tempPdfPath tmpDir uuidStr = tmpDir ++ uuidStr ++ ".pdf") ∧
    tempPdfPath "/tmp" "1b9d6bcd" = "/tmp1b9d6bcd.pdf" ∧
    List.isPrefixOf "/tmp/".data (tempPdfPath "/tmp" "1b9d6bcd").data = false := by
  refine ⟨fun _ _ => rfl, by decide, by decide⟩

end OcrTesseract
